import Mathlib

/-!
Verification development for the quadrax GPU buffer / compute-dispatch library.

Shallow embedding conventions:
* Device and host allocations are lists of memory cells; a cell is
  `Option α`, where `none` models uninitialized memory (vulkano's
  `Buffer::new_slice` allocates without writing any contents) and `some v`
  a cell last written with `v`.
* Rust panics (`todo!()`, slice-range panics, `copy_from_slice` length
  mismatches) are modelled by the `Outcome.panicked` constructor; recoverable
  errors would be a distinct constructor, which the sources never produce.
* GPU work is modelled at quiescent points: a submitted buffer-to-buffer copy
  is applied to the destination in the state returned by the operation, which
  matches what any later observation sees because the single queue executes
  submissions in FIFO order and every observation point (a read future's
  `wait`, or the synchronous paths) waits on a fence submitted after it.
* `GPULA.dispatch` is embedded as the trace of its externally visible
  effects: the descriptor bindings it creates, the commands it records into
  the one command buffer, and whether it submitted and waited on the fence.
  Its Rust return type is `()`: the trace carries no completion handle
  because the source returns none.
-/

namespace Quadrax

/-- One memory cell of an allocation: `none` is uninitialized memory,
`some v` holds a written value. -/
abbrev Cell (α : Type) := Option α

/-- Result of a Rust computation that may panic (this library surfaces its
failure paths as panics: `todo!()`, slice-range panics, `unwrap`). -/
inductive Outcome (α : Type) where
  | ok (val : α)
  | panicked (msg : String)
deriving DecidableEq

/-- Rust `mapping[..data.len()].copy_from_slice(data)` in the in-bounds case:
overwrite the front of `dest` with `data`, keep the rest. -/
def copyIntoFront {α : Type} (dest : List (Cell α)) (data : List α) : List (Cell α) :=
  data.map some ++ dest.drop data.length

/-- Rust `mapping[..data.len()].copy_from_slice(data)` including the slice
range check: slicing past the end of the mapping panics. -/
def sliceWriteFront {α : Type} (dest : List (Cell α)) (data : List α) :
    Outcome (List (Cell α)) :=
  if data.length ≤ dest.length then Outcome.ok (copyIntoFront dest data)
  else Outcome.panicked "range end index out of range for slice"

/-- vulkano `CopyBufferInfo::buffers(src, dst)` records one copy region of
size `min (src.size) (dst.size)`: the front of `dst` is overwritten with the
front of `src`, the rest of `dst` is untouched. -/
def copy_buffer {α : Type} (src dst : List (Cell α)) : List (Cell α) :=
  src.take (min src.length dst.length) ++ dst.drop (min src.length dst.length)

theorem copyIntoFront_length {α : Type} (dest : List (Cell α)) (data : List α)
    (h : data.length ≤ dest.length) :
    (copyIntoFront dest data).length = dest.length := by
  simp only [copyIntoFront, List.length_append, List.length_map, List.length_drop]
  omega

theorem copy_buffer_length {α : Type} (src dst : List (Cell α)) :
    (copy_buffer src dst).length = dst.length := by
  simp only [copy_buffer, List.length_append, List.length_take, List.length_drop]
  omega

theorem copy_buffer_of_length_eq {α : Type} (src dst : List (Cell α))
    (h : src.length = dst.length) : copy_buffer src dst = src := by
  simp [copy_buffer, h]

theorem copyIntoFront_getElem_tail {α : Type} (dest : List (Cell α)) (data : List α)
    (i : Nat) (hi : data.length ≤ i) :
    (copyIntoFront dest data)[i]? = dest[i]? := by
  unfold copyIntoFront
  rw [List.getElem?_append_right (by simpa using hi)]
  rw [List.getElem?_drop]
  congr 1
  simp
  omega

theorem copyIntoFront_take {α : Type} (dest : List (Cell α)) (data : List α) :
    (copyIntoFront dest data).take data.length = data.map some := by
  unfold copyIntoFront
  rw [List.take_append_of_le_length (by simp)]
  simp

/-- Buffer intent, src/src/backend/buffer.rs. -/
inductive Intent where
  | Static
  | Dynamic
deriving DecidableEq

/-- vulkano `BufferUsage` bit set, restricted to the bits this library uses. -/
structure BufferUsage where
  transfer_src : Bool
  transfer_dst : Bool
  vertex_buffer : Bool
  uniform_buffer : Bool
  storage_buffer : Bool
deriving DecidableEq

/-- vulkano `MemoryTypeFilter` bit set, restricted to the bits this library
uses. -/
structure MemoryTypeFilter where
  prefer_device : Bool
  prefer_host : Bool
  host_sequential_write : Bool
  host_random_access : Bool
deriving DecidableEq

namespace BufferStrategy

/-- `BufferStrategy::memory_filter` for `Intent`, src/src/backend/buffer.rs
lines 29-36. -/
def memory_filter : Intent → MemoryTypeFilter
  | Intent.Static =>
      { prefer_device := true, prefer_host := false,
        host_sequential_write := false, host_random_access := false }
  | Intent.Dynamic =>
      { prefer_device := true, prefer_host := false,
        host_sequential_write := true, host_random_access := false }

/-- `BufferStrategy::buffer_usage` for `Intent`, src/src/backend/buffer.rs
lines 37-46: `Static` maps to `VERTEX_BUFFER | TRANSFER_SRC | TRANSFER_DST`,
`Dynamic` to `UNIFORM_BUFFER | VERTEX_BUFFER`. -/
def buffer_usage : Intent → BufferUsage
  | Intent.Static =>
      { transfer_src := true, transfer_dst := true, vertex_buffer := true,
        uniform_buffer := false, storage_buffer := false }
  | Intent.Dynamic =>
      { transfer_src := false, transfer_dst := false, vertex_buffer := true,
        uniform_buffer := true, storage_buffer := false }

end BufferStrategy

/-- Usage set the spec prescribes for `Static`: transfer source and transfer
destination only, no other usage bits. Written from the spec's words, to be
compared against `BufferStrategy.buffer_usage` from the source. -/
def spec_static_usage : BufferUsage :=
  { transfer_src := true, transfer_dst := true, vertex_buffer := false,
    uniform_buffer := false, storage_buffer := false }

/-- Intent-tagged buffer of src/src/backend/buffer.rs: one device allocation
(`contents`) plus the intent chosen at creation. -/
structure Buffer (α : Type) where
  contents : List (Cell α)
  intent : Intent
deriving DecidableEq

namespace Buffer

/-- `Buffer::update_async`, src/src/backend/buffer.rs lines 92-135.
Oversized data hits `todo!()`, a panic. `Dynamic` maps the allocation and
overwrites the front in place, returning `now(device)` (no pending
submission, modelled `none`). `Static` fills a fresh staging allocation of
`data.len()` elements and records+submits a staging-to-device `copy_buffer`,
returning the submission's future (`some ()`); at the quiescent point the
copy has overwritten the front of the device allocation. -/
def update_async {α : Type} (st : Buffer α) (data : List α) :
    Outcome (Buffer α × Option Unit) :=
  if data.length > st.contents.length then
    Outcome.panicked "not yet implemented"
  else
    match st.intent with
    | Intent.Dynamic =>
        Outcome.ok ({ st with contents := copyIntoFront st.contents data }, none)
    | Intent.Static =>
        Outcome.ok
          ({ st with contents := copy_buffer (data.map some) st.contents }, some ())

/-- `Buffer::from_data_async`, src/src/backend/buffer.rs lines 57-80:
`new_slice` allocates `data.len()` uninitialized cells, then `update_async`
performs the first write. -/
def from_data_async {α : Type} (data : List α) (intent : Intent) :
    Buffer α × Option Unit :=
  let fresh : Buffer α := { contents := List.replicate data.length none, intent := intent }
  match fresh.update_async data with
  | Outcome.ok r => r
  | Outcome.panicked _ => (fresh, none)

/-- `Buffer::read`, src/src/backend/buffer.rs lines 146-188. `Static`
allocates a staging region of the buffer's length, submits a
device-to-staging copy, waits on the fence, and maps the staging region;
`Dynamic` maps the allocation directly. Both return every cell of the
allocation. -/
def read {α : Type} (st : Buffer α) : List (Cell α) :=
  match st.intent with
  | Intent.Static =>
      copy_buffer st.contents (List.replicate st.contents.length (none : Cell α))
  | Intent.Dynamic => st.contents

end Buffer

/-- Write-completion handle, src/src/backend/buffer/mod.rs lines 14-29:
wraps zero or one pending GPU submission. -/
structure BufferWriteFuture where
  inner : Option Unit
deriving DecidableEq

/-- `BufferWriteFuture::is_trivial`, src/src/backend/buffer/mod.rs
lines 26-28. -/
def BufferWriteFuture.is_trivial (f : BufferWriteFuture) : Bool :=
  f.inner.isNone

/-- A write future's `wait` blocks (on `then_signal_fence_and_flush` +
`wait(None)`) exactly when a submission is pending,
src/src/backend/buffer/mod.rs lines 18-25. -/
def BufferWriteFuture.blocksOnWait (f : BufferWriteFuture) : Bool :=
  f.inner.isSome

/-- Read-completion handle, src/src/backend/buffer/mod.rs lines 31-45: zero
or one pending submission plus the deferred extraction. `data` is the value
the extraction closure yields once `wait` runs (for `CoherentBuffer` the
closure returns a snapshot taken at the `read` call; for `StagedBuffer` it
maps the staging region, whose quiescent-point contents the `read`
transition fixes). -/
structure BufferReadFuture (α : Type) where
  inner : Option Unit
  data : List (Cell α)
deriving DecidableEq

/-- `BufferReadFuture::wait`, src/src/backend/buffer/mod.rs lines 36-44:
wait on the fence if a submission is pending, then run the extraction. -/
def BufferReadFuture.wait {α : Type} (f : BufferReadFuture α) : List (Cell α) :=
  f.data

/-- A read future's `wait` blocks exactly when a submission is pending. -/
def BufferReadFuture.blocksOnWait {α : Type} (f : BufferReadFuture α) : Bool :=
  f.inner.isSome

/-- Host-mappable buffer, src/src/backend/buffer/coherent.rs. -/
structure CoherentBuffer (α : Type) where
  contents : List (Cell α)
deriving DecidableEq

namespace CoherentBuffer

/-- `CoherentBuffer::from_data`, src/src/backend/buffer/coherent.rs
lines 16-32: `Buffer::from_iter` creates the allocation already holding
`data`. -/
def from_data {α : Type} (data : List α) : CoherentBuffer α :=
  { contents := data.map some }

/-- `CoherentBuffer::read`, src/src/backend/buffer/coherent.rs lines 34-39:
maps the allocation, takes an eager snapshot, and returns a trivially
complete future whose closure yields that snapshot. -/
def read {α : Type} (st : CoherentBuffer α) : BufferReadFuture α :=
  { inner := none, data := st.contents }

/-- `CoherentBuffer::write`, src/src/backend/buffer/coherent.rs lines 41-45:
maps the allocation and overwrites the front in place
(`mapping[..data.len()].copy_from_slice(data)`, which panics past the end),
returning a trivially complete write future. -/
def write {α : Type} (st : CoherentBuffer α) (data : List α) :
    Outcome (CoherentBuffer α × BufferWriteFuture) :=
  match sliceWriteFront st.contents data with
  | Outcome.ok c => Outcome.ok ({ contents := c }, { inner := none })
  | Outcome.panicked m => Outcome.panicked m

end CoherentBuffer

/-- Double-buffered buffer, src/src/backend/buffer/staged.rs: a device-local
allocation (`inner`) plus a persistent host-visible staging allocation
(`staging`). -/
structure StagedBuffer (α : Type) where
  inner : List (Cell α)
  staging : List (Cell α)
deriving DecidableEq

namespace StagedBuffer

/-- `StagedBuffer::from_data`, src/src/backend/buffer/staged.rs lines 19-54:
both allocations are created by `Buffer::from_iter` already holding
`data`. -/
def from_data {α : Type} (data : List α) : StagedBuffer α :=
  { inner := data.map some, staging := data.map some }

/-- `StagedBuffer::read`, src/src/backend/buffer/staged.rs lines 56-85:
records+submits a device-to-staging `copy_buffer` and returns a future with
that submission pending, whose closure maps the staging region once waited
on. At the quiescent point the copy has run: the staging region holds the
device contents, and the extraction yields them. -/
def read {α : Type} (st : StagedBuffer α) : StagedBuffer α × BufferReadFuture α :=
  let stg := copy_buffer st.inner st.staging
  ({ st with staging := stg }, { inner := some (), data := stg })

/-- `StagedBuffer::write`, src/src/backend/buffer/staged.rs lines 87-114:
overwrites the front of the staging region in place
(`mapping[..data.len()].copy_from_slice(data)`, panicking past the end),
then records+submits a staging-to-device `copy_buffer` of the whole staging
region and returns a future with that submission pending. At the quiescent
point the copy has run. -/
def write {α : Type} (st : StagedBuffer α) (data : List α) :
    Outcome (StagedBuffer α × BufferWriteFuture) :=
  match sliceWriteFront st.staging data with
  | Outcome.ok stg =>
      Outcome.ok
        ({ staging := stg, inner := copy_buffer stg st.inner }, { inner := some () })
  | Outcome.panicked m => Outcome.panicked m

end StagedBuffer

/-- Host-mappable buffer, src/src/backend/buffer/variable.rs. -/
structure VariableBuffer (α : Type) where
  contents : List (Cell α)
deriving DecidableEq

namespace VariableBuffer

/-- `VariableBuffer::from_data`, src/src/backend/buffer/variable.rs
lines 13-29: `Buffer::from_iter` creates the allocation already holding
`data`. -/
def from_data {α : Type} (data : List α) : VariableBuffer α :=
  { contents := data.map some }

/-- `VariableBuffer::read`, src/src/backend/buffer/variable.rs lines 31-34:
maps the allocation and copies every cell out. -/
def read {α : Type} (st : VariableBuffer α) : List (Cell α) :=
  st.contents

/-- `VariableBuffer::update`, src/src/backend/buffer/variable.rs lines 36-39:
maps the allocation and overwrites the front in place (panicking past the
end). -/
def update {α : Type} (st : VariableBuffer α) (data : List α) :
    Outcome (VariableBuffer α) :=
  match sliceWriteFront st.contents data with
  | Outcome.ok c => Outcome.ok { contents := c }
  | Outcome.panicked m => Outcome.panicked m

end VariableBuffer

/-- Device-local buffer, src/src/backend/buffer/constant.rs. -/
structure ConstantBuffer (α : Type) where
  contents : List (Cell α)
deriving DecidableEq

namespace ConstantBuffer

/-- `ConstantBuffer::from_data`, src/src/backend/buffer/constant.rs
lines 15-30: `Buffer::new_slice` allocates `data.len()` uninitialized cells.
The `data` argument is used only for its length; no write of its contents is
performed. -/
def from_data {α : Type} (data : List α) : ConstantBuffer α :=
  { contents := List.replicate data.length (none : Cell α) }

/-- `ConstantBuffer::read`, src/src/backend/buffer/constant.rs lines 32-65:
allocates a staging region of the buffer's length, submits a
device-to-staging copy, waits on the fence, and maps the staging region. -/
def read {α : Type} (st : ConstantBuffer α) : List (Cell α) :=
  copy_buffer st.contents (List.replicate st.contents.length (none : Cell α))

/-- `ConstantBuffer::update`, src/src/backend/buffer/constant.rs
lines 67-110: fills an ephemeral staging allocation of `data.len()` elements
with `data` (`Buffer::from_iter`), submits a staging-to-device `copy_buffer`,
and waits on the fence. The copy region is `min` of the two sizes, so an
oversized `data` silently truncates rather than erroring. -/
def update {α : Type} (st : ConstantBuffer α) (data : List α) : ConstantBuffer α :=
  { contents := copy_buffer (data.map some) st.contents }

end ConstantBuffer

/-- Opcode of the compute kernel, src/src/mathematics/mod.rs lines 26-33,
with its Rust discriminant values. -/
inductive OpCode where
  | Add
  | Sub
  | Dot
  | Mul
  | Cross
  | Distance
deriving DecidableEq

/-- Rust `op as u32` on the `OpCode` discriminants 0..5. -/
def OpCode.toNat : OpCode → Nat
  | OpCode.Add => 0
  | OpCode.Sub => 1
  | OpCode.Dot => 2
  | OpCode.Mul => 3
  | OpCode.Cross => 4
  | OpCode.Distance => 5

/-- One command recorded into the dispatch's command buffer,
src/src/mathematics/mod.rs lines 107-125. Descriptor bindings are recorded
as (slot, bound buffer length) pairs. -/
inductive Command where
  | bind_pipeline_compute
  | bind_descriptor_sets (firstSet : Nat) (bindings : List (Nat × Nat))
  | push_constants (op_code : Nat) (count : Nat)
  | dispatchCmd (groups : Nat × Nat × Nat)
deriving DecidableEq

/-- Recognizer for the dispatch command among recorded commands. -/
def Command.isDispatchCmd : Command → Bool
  | Command.dispatchCmd _ => true
  | _ => false

/-- Externally visible effects of one `GPULA::dispatch` call: the descriptor
set it allocates, the commands recorded in its one command buffer, and the
submission/fence behavior. The Rust function's return type is `()`, so the
trace carries no completion handle. -/
structure DispatchTrace where
  descriptor_bindings : List (Nat × Nat)
  commands : List Command
  submitted : Bool
  waited_on_fence : Bool
deriving DecidableEq

namespace GPULA

/-- `GPULA::dispatch`, src/src/mathematics/mod.rs lines 82-134: allocates a
descriptor set binding the three staged buffers at slots 0, 1, 2; records one
command buffer that binds the pipeline, binds the descriptor set, pushes the
opcode and count, and issues one dispatch with the fixed grid `[128, 1, 1]`;
then submits it, signals a fence, flushes, and waits on the fence before
returning. No validation of buffer lengths or of `count` is performed
anywhere on this path. -/
def dispatch {α : Type} (op : OpCode) (a b c : StagedBuffer α) (count : Nat) :
    DispatchTrace :=
  let bindings := [(0, a.inner.length), (1, b.inner.length), (2, c.inner.length)]
  { descriptor_bindings := bindings
    commands :=
      [Command.bind_pipeline_compute,
       Command.bind_descriptor_sets 0 bindings,
       Command.push_constants op.toNat count,
       Command.dispatchCmd (128, 1, 1)]
    submitted := true
    waited_on_fence := true }

end GPULA

/-- States of a `StagedBuffer` reachable through its public operations,
observed at quiescent points: construction by `from_data`, a `write` whose
submitted copy has completed, and a `read` whose submitted copy has
completed. -/
inductive StagedReach {α : Type} : StagedBuffer α → Prop where
  | init (d : List α) : StagedReach (StagedBuffer.from_data d)
  | step_write (st st2 : StagedBuffer α) (d : List α) (f : BufferWriteFuture) :
      StagedReach st → st.write d = Outcome.ok (st2, f) → StagedReach st2
  | step_read (st : StagedBuffer α) : StagedReach st → StagedReach st.read.1

theorem StagedBuffer.staged_write_eq_ok_of_le {α : Type} (st : StagedBuffer α) (d : List α)
    (h : d.length ≤ st.staging.length) :
    st.write d =
      Outcome.ok
        ({ staging := copyIntoFront st.staging d,
           inner := copy_buffer (copyIntoFront st.staging d) st.inner },
         { inner := some () }) := by
  unfold StagedBuffer.write sliceWriteFront
  rw [if_pos h]

theorem StagedBuffer.staged_write_eq_panicked_of_gt {α : Type} (st : StagedBuffer α)
    (d : List α) (h : st.staging.length < d.length) :
    st.write d = Outcome.panicked "range end index out of range for slice" := by
  unfold StagedBuffer.write sliceWriteFront
  rw [if_neg (by omega)]

theorem StagedBuffer.staged_write_ok_inversion {α : Type} (st st2 : StagedBuffer α)
    (d : List α) (f : BufferWriteFuture)
    (heq : st.write d = Outcome.ok (st2, f)) :
    d.length ≤ st.staging.length ∧
    st2.staging = copyIntoFront st.staging d ∧
    st2.inner = copy_buffer (copyIntoFront st.staging d) st.inner := by
  by_cases h : d.length ≤ st.staging.length
  · rw [StagedBuffer.staged_write_eq_ok_of_le st d h] at heq
    injection heq with h2
    injection h2 with h3 h4
    subst h3
    exact ⟨h, rfl, rfl⟩
  · rw [StagedBuffer.staged_write_eq_panicked_of_gt st d (by omega)] at heq
    cases heq

theorem stagedReach_staging_eq_inner {α : Type} (st : StagedBuffer α)
    (h : StagedReach st) : st.staging = st.inner := by
  induction h with
  | init d => rfl
  | step_write st st2 d f hr heq ih =>
      obtain ⟨hlen, h1, h2⟩ := StagedBuffer.staged_write_ok_inversion st st2 d f heq
      rw [h1, h2, copy_buffer_of_length_eq]
      rw [copyIntoFront_length _ _ hlen, ih]
  | step_read st hr ih =>
      show (copy_buffer st.inner st.staging) = st.inner
      exact copy_buffer_of_length_eq _ _ (by rw [ih])

theorem copyIntoFront_of_length_eq {α : Type} (dest : List (Cell α)) (data : List α)
    (h : data.length = dest.length) : copyIntoFront dest data = data.map some := by
  unfold copyIntoFront
  rw [h, List.drop_length, List.append_nil]

theorem copy_buffer_map_some {α : Type} (dest : List (Cell α)) (data : List α)
    (h : data.length ≤ dest.length) :
    copy_buffer (data.map some) dest = copyIntoFront dest data := by
  unfold copy_buffer copyIntoFront
  rw [List.length_map, Nat.min_eq_left h, List.take_of_length_le (by simp)]

theorem Buffer.tagged_read_eq_contents {α : Type} (st : Buffer α) : st.read = st.contents := by
  unfold Buffer.read
  cases st.intent
  · exact copy_buffer_of_length_eq _ _ (by simp)
  · rfl

theorem ConstantBuffer.constant_read_eq_contents {α : Type} (st : ConstantBuffer α) :
    st.read = st.contents := by
  unfold ConstantBuffer.read
  exact copy_buffer_of_length_eq _ _ (by simp)

theorem CoherentBuffer.coherent_write_eq_ok_of_le {α : Type} (st : CoherentBuffer α)
    (d : List α) (h : d.length ≤ st.contents.length) :
    st.write d =
      Outcome.ok ({ contents := copyIntoFront st.contents d }, { inner := none }) := by
  unfold CoherentBuffer.write sliceWriteFront
  rw [if_pos h]

theorem CoherentBuffer.coherent_write_ok_inversion {α : Type} (st st2 : CoherentBuffer α)
    (d : List α) (f : BufferWriteFuture)
    (heq : st.write d = Outcome.ok (st2, f)) :
    d.length ≤ st.contents.length ∧
    st2.contents = copyIntoFront st.contents d ∧ f = { inner := none } := by
  by_cases h : d.length ≤ st.contents.length
  · rw [CoherentBuffer.coherent_write_eq_ok_of_le st d h] at heq
    injection heq with h2
    injection h2 with h3 h4
    subst h3
    exact ⟨h, rfl, h4.symm⟩
  · unfold CoherentBuffer.write sliceWriteFront at heq
    rw [if_neg h] at heq
    cases heq

theorem VariableBuffer.update_ok_inversion {α : Type} (st st2 : VariableBuffer α)
    (d : List α) (heq : st.update d = Outcome.ok st2) :
    d.length ≤ st.contents.length ∧ st2.contents = copyIntoFront st.contents d := by
  unfold VariableBuffer.update sliceWriteFront at heq
  by_cases h : d.length ≤ st.contents.length
  · rw [if_pos h] at heq
    injection heq with h2
    subst h2
    exact ⟨h, rfl⟩
  · rw [if_neg h] at heq
    cases heq

theorem Buffer.update_async_ok_inversion {α : Type} (st st2 : Buffer α)
    (d : List α) (fut : Option Unit)
    (heq : st.update_async d = Outcome.ok (st2, fut)) :
    d.length ≤ st.contents.length ∧
    st2.contents = copyIntoFront st.contents d ∧ st2.intent = st.intent := by
  unfold Buffer.update_async at heq
  by_cases h : st.contents.length < d.length
  · rw [if_pos h] at heq
    cases heq
  · rw [if_neg h] at heq
    cases hi : st.intent <;> rw [hi] at heq <;>
      injection heq with h2 <;> injection h2 with h3 h4 <;> subst h3
    · refine ⟨by omega, ?_, rfl⟩
      exact copy_buffer_map_some st.contents d (by omega)
    · exact ⟨by omega, rfl, rfl⟩

/-- Claim C1, counterexample: at a concrete valid call, `GPULA::dispatch`
waits on the submission's fence before returning, refuting "dispatch returns
a completion handle over the submission without waiting for the GPU work
itself" (the Rust function moreover returns `()`, not a handle). -/
theorem C1_cex_dispatch_waits :
    (GPULA.dispatch OpCode.Add (StagedBuffer.from_data [(1 : Nat)])
        (StagedBuffer.from_data [1]) (StagedBuffer.from_data [0]) 1).waited_on_fence
      = true := by
  decide

/-- Claim C1 (amended): for every call to dispatch, dispatch submits the
recorded command buffer and blocks on its fence until the GPU work completes
before returning; it returns unit rather than a completion handle, so the
output buffer's data is already visible when dispatch returns. -/
theorem C1_dispatch_submits_and_blocks {α : Type} (op : OpCode)
    (a b c : StagedBuffer α) (count : Nat) :
    (GPULA.dispatch op a b c count).submitted = true ∧
    (GPULA.dispatch op a b c count).waited_on_fence = true :=
  ⟨rfl, rfl⟩

/-- Claim C2, counterexample: dispatch called on three buffers of pairwise
different lengths (1, 2, 3) with a `count` of 99 exceeding every capacity
still records the dispatch command and submits it — it does not fail with a
precondition error before submission. -/
theorem C2_cex_dispatch_submits_on_mismatch :
    (GPULA.dispatch OpCode.Add (StagedBuffer.from_data [(1 : Nat)])
        (StagedBuffer.from_data [1, 2]) (StagedBuffer.from_data [1, 2, 3]) 99).submitted
        = true
    ∧ (GPULA.dispatch OpCode.Add (StagedBuffer.from_data [(1 : Nat)])
        (StagedBuffer.from_data [1, 2]) (StagedBuffer.from_data [1, 2, 3]) 99).commands.filter
        Command.isDispatchCmd
      = [Command.dispatchCmd (128, 1, 1)] := by
  decide

/-- Claim C2 (amended): dispatch performs no precondition validation: even
when the three bound buffers have mismatched lengths or `count` exceeds a
buffer's capacity, it records the full command sequence, including the
dispatch command, and submits it; no error path exists before submission. -/
theorem C2_dispatch_no_validation {α : Type} (op : OpCode)
    (a b c : StagedBuffer α) (count : Nat)
    (_h : a.inner.length ≠ b.inner.length ∨ b.inner.length ≠ c.inner.length
        ∨ a.inner.length < count ∨ b.inner.length < count ∨ c.inner.length < count) :
    (GPULA.dispatch op a b c count).submitted = true ∧
    (GPULA.dispatch op a b c count).commands.filter Command.isDispatchCmd
      = [Command.dispatchCmd (128, 1, 1)] :=
  ⟨rfl, rfl⟩

/-- Claim C2 witness: the amended theorem applied to concrete mismatched
buffers. -/
theorem C2_witness :
    ((1 : Nat) ≠ 2 ∨ (2 : Nat) ≠ 3 ∨ (1 : Nat) < 99 ∨ (2 : Nat) < 99 ∨ (3 : Nat) < 99)
    ∧ ((GPULA.dispatch OpCode.Sub (StagedBuffer.from_data [(4 : Nat)])
        (StagedBuffer.from_data [5, 6]) (StagedBuffer.from_data [7, 8, 9]) 99).submitted = true
      ∧ (GPULA.dispatch OpCode.Sub (StagedBuffer.from_data [(4 : Nat)])
        (StagedBuffer.from_data [5, 6]) (StagedBuffer.from_data [7, 8, 9]) 99).commands.filter
        Command.isDispatchCmd
      = [Command.dispatchCmd (128, 1, 1)]) :=
  ⟨by decide,
   C2_dispatch_no_validation OpCode.Sub (StagedBuffer.from_data [(4 : Nat)])
     (StagedBuffer.from_data [5, 6]) (StagedBuffer.from_data [7, 8, 9]) 99 (by decide)⟩

/-- Claim C7, counterexample: `BufferStrategy::buffer_usage` applied to
`Intent::Static` also sets the vertex-buffer usage bit, so the returned
usage-permission set is not "only transfer-source and transfer-destination"
as the spec prescribes. -/
theorem C7_cex_static_usage_has_vertex :
    (BufferStrategy.buffer_usage Intent.Static).vertex_buffer = true
    ∧ BufferStrategy.buffer_usage Intent.Static ≠ spec_static_usage := by
  decide

/-- Claim C7 (amended): applied to `Static`, the strategy returns exactly the
usage bits transfer-source, transfer-destination, and vertex-buffer (one bit
beyond the spec's transfer-only set); the strategy is total over the two
intent values, every intent falling into one of the two explicit match arms
with no default or fallback case. -/
theorem C7_buffer_usage_static_and_total (i : Intent) :
    (i = Intent.Static ∧ BufferStrategy.buffer_usage i =
      { transfer_src := true, transfer_dst := true, vertex_buffer := true,
        uniform_buffer := false, storage_buffer := false })
    ∨ (i = Intent.Dynamic ∧ BufferStrategy.buffer_usage i =
      { transfer_src := false, transfer_dst := false, vertex_buffer := true,
        uniform_buffer := true, storage_buffer := false }) := by
  cases i
  · exact Or.inl ⟨rfl, rfl⟩
  · exact Or.inr ⟨rfl, rfl⟩

/-- Claim C3, code evaluated at the failing inputs: writing three elements
into capacity-two buffers panics in every write path — `Buffer::update_async`
hits `todo!()`, and `StagedBuffer::write` / `CoherentBuffer::write` /
`VariableBuffer::update` hit the out-of-range slice
`mapping[..data.len()]` — instead of failing with a recoverable capacity
error as the claim requires. -/
theorem C3_capacity_overflow_panics :
    (Buffer.update_async { contents := [some 1, some 2], intent := Intent.Dynamic }
        [(5 : Nat), 6, 7] = Outcome.panicked "not yet implemented")
    ∧ (StagedBuffer.write (StagedBuffer.from_data [(1 : Nat), 2]) [5, 6, 7]
        = Outcome.panicked "range end index out of range for slice")
    ∧ (CoherentBuffer.write (CoherentBuffer.from_data [(1 : Nat), 2]) [5, 6, 7]
        = Outcome.panicked "range end index out of range for slice")
    ∧ (VariableBuffer.update (VariableBuffer.from_data [(1 : Nat), 2]) [5, 6, 7]
        = Outcome.panicked "range end index out of range for slice") := by
  decide

/-- Claim C4, code evaluated at the failing input: `ConstantBuffer::from_data`
uses its `data` argument only for its length and never writes the contents,
so a read before any write returns uninitialized cells, not the initial
data. -/
theorem C4_constant_from_data_never_writes :
    (ConstantBuffer.from_data [(1 : Nat), 2, 3]).read
        = List.replicate 3 (none : Cell Nat)
    ∧ (ConstantBuffer.from_data [(1 : Nat), 2, 3]).read
        ≠ [(1 : Nat), 2, 3].map some := by
  decide

/-- Claim C5, counterexample: on a coherent buffer of capacity 5 holding
[1,2,3,4,5], writing d = [10,20] and then reading (waiting on the returned
handles) yields all five elements [10,20,3,4,5], not d — the round trip
`write(d); read() = d` fails when `len(d) < capacity`. -/
theorem C5_cex_short_write_round_trip :
    (CoherentBuffer.write (CoherentBuffer.from_data [(1 : Nat), 2, 3, 4, 5]) [10, 20]
      = Outcome.ok
          ({ contents := [some 10, some 20, some 3, some 4, some 5] }, { inner := none }))
    ∧ (CoherentBuffer.read
        { contents := [some (10 : Nat), some 20, some 3, some 4, some 5] }).wait
      ≠ [(10 : Nat), 20].map some := by
  decide

/-- Claim C5 (amended): for every buffer variant and every data array d with
`len(d) ≤ capacity`, performing write(d) and then read() (waiting on any
returned handles) yields a result whose first `len(d)` elements are exactly
d, and which is exactly d when `len(d) = capacity`. Stated for each variant:
coherent, variable, intent-tagged (both intents), constant, and staged
(from any state reachable through its public operations). -/
theorem C5_write_read_round_trip {α : Type} :
    (∀ (st st2 : CoherentBuffer α) (f : BufferWriteFuture) (d : List α),
      st.write d = Outcome.ok (st2, f) →
      st2.read.wait.take d.length = d.map some
      ∧ (d.length = st.contents.length → st2.read.wait = d.map some))
    ∧ (∀ (st st2 : VariableBuffer α) (d : List α),
      st.update d = Outcome.ok st2 →
      st2.read.take d.length = d.map some
      ∧ (d.length = st.contents.length → st2.read = d.map some))
    ∧ (∀ (st st2 : Buffer α) (fut : Option Unit) (d : List α),
      st.update_async d = Outcome.ok (st2, fut) →
      st2.read.take d.length = d.map some
      ∧ (d.length = st.contents.length → st2.read = d.map some))
    ∧ (∀ (st : ConstantBuffer α) (d : List α),
      d.length ≤ st.contents.length →
      (st.update d).read.take d.length = d.map some
      ∧ (d.length = st.contents.length → (st.update d).read = d.map some))
    ∧ (∀ (st st2 : StagedBuffer α) (f : BufferWriteFuture) (d : List α),
      StagedReach st →
      st.write d = Outcome.ok (st2, f) →
      st2.read.2.wait.take d.length = d.map some
      ∧ (d.length = st.staging.length → st2.read.2.wait = d.map some)) := by
  refine ⟨?_, ?_, ?_, ?_, ?_⟩
  · intro st st2 f d heq
    obtain ⟨-, hc, -⟩ := CoherentBuffer.coherent_write_ok_inversion st st2 d f heq
    constructor
    · show st2.contents.take d.length = _
      rw [hc]
      exact copyIntoFront_take _ _
    · intro hfull
      show st2.contents = _
      rw [hc]
      exact copyIntoFront_of_length_eq _ _ hfull
  · intro st st2 d heq
    obtain ⟨-, hc⟩ := VariableBuffer.update_ok_inversion st st2 d heq
    constructor
    · show st2.contents.take d.length = _
      rw [hc]
      exact copyIntoFront_take _ _
    · intro hfull
      show st2.contents = _
      rw [hc]
      exact copyIntoFront_of_length_eq _ _ hfull
  · intro st st2 fut d heq
    obtain ⟨-, hc, -⟩ := Buffer.update_async_ok_inversion st st2 d fut heq
    rw [Buffer.tagged_read_eq_contents, hc]
    exact ⟨copyIntoFront_take _ _, fun hfull => copyIntoFront_of_length_eq _ _ hfull⟩
  · intro st d hle
    rw [ConstantBuffer.constant_read_eq_contents]
    constructor
    · show (copy_buffer (d.map some) st.contents).take d.length = _
      rw [copy_buffer_map_some st.contents d hle]
      exact copyIntoFront_take _ _
    · intro hfull
      show copy_buffer (d.map some) st.contents = _
      rw [copy_buffer_map_some st.contents d hle]
      exact copyIntoFront_of_length_eq _ _ hfull
  · intro st st2 f d hreach heq
    obtain ⟨hle, h1, h2⟩ := StagedBuffer.staged_write_ok_inversion st st2 d f heq
    have inv := stagedReach_staging_eq_inner st hreach
    have hstg : (copyIntoFront st.staging d).length = st.staging.length :=
      copyIntoFront_length _ _ hle
    have hin : st2.inner = copyIntoFront st.staging d := by
      rw [h2, copy_buffer_of_length_eq _ _ (by rw [hstg, inv])]
    constructor
    · show (copy_buffer st2.inner st2.staging).take d.length = _
      rw [h1, hin, copy_buffer_of_length_eq _ _ rfl]
      exact copyIntoFront_take _ _
    · intro hfull
      show copy_buffer st2.inner st2.staging = _
      rw [h1, hin, copy_buffer_of_length_eq _ _ rfl]
      exact copyIntoFront_of_length_eq _ _ hfull

/-- Claim C5 witness: the amended round trip instantiated on a coherent
buffer and on a reachable staged buffer with concrete data. -/
theorem C5_witness :
    ((CoherentBuffer.read { contents := [some (7 : Nat), some 8, some 9] }).wait
        = [(7 : Nat), 8, 9].map some)
    ∧ ((StagedBuffer.from_data [(5 : Nat), 6, 3]).read.2.wait.take 2
        = [(5 : Nat), 6].map some) := by
  constructor
  · exact
      (C5_write_read_round_trip.1 (CoherentBuffer.from_data [(1 : Nat), 2, 3])
        { contents := [some 7, some 8, some 9] } { inner := none } [7, 8, 9]
        (by decide)).2 (by decide)
  · have h :=
      (C5_write_read_round_trip.2.2.2.2 (StagedBuffer.from_data [(1 : Nat), 2, 3])
        (StagedBuffer.from_data [(5 : Nat), 6, 3]) { inner := some () } [5, 6]
        (StagedReach.init [1, 2, 3]) (by decide)).1
    exact h

/-- Claim C6: for every buffer variant, writing d with `len(d) < capacity`
(the write succeeding requires `len(d) ≤ capacity`) updates only the front
and leaves every element at index `≥ len(d)` unchanged from its prior value,
as observed by a subsequent read. Stated for coherent, variable,
intent-tagged (both intents), constant, and staged (from any reachable
state) buffers. -/
theorem C6_short_write_keeps_tail {α : Type} :
    (∀ (st st2 : CoherentBuffer α) (f : BufferWriteFuture) (d : List α) (i : Nat),
      st.write d = Outcome.ok (st2, f) → d.length ≤ i →
      st2.read.wait[i]? = st.read.wait[i]?)
    ∧ (∀ (st st2 : VariableBuffer α) (d : List α) (i : Nat),
      st.update d = Outcome.ok st2 → d.length ≤ i →
      st2.read[i]? = st.read[i]?)
    ∧ (∀ (st st2 : Buffer α) (fut : Option Unit) (d : List α) (i : Nat),
      st.update_async d = Outcome.ok (st2, fut) → d.length ≤ i →
      st2.read[i]? = st.read[i]?)
    ∧ (∀ (st : ConstantBuffer α) (d : List α) (i : Nat),
      d.length ≤ st.contents.length → d.length ≤ i →
      (st.update d).read[i]? = st.read[i]?)
    ∧ (∀ (st st2 : StagedBuffer α) (f : BufferWriteFuture) (d : List α) (i : Nat),
      StagedReach st → st.write d = Outcome.ok (st2, f) → d.length ≤ i →
      st2.read.2.wait[i]? = st.read.2.wait[i]?) := by
  refine ⟨?_, ?_, ?_, ?_, ?_⟩
  · intro st st2 f d i heq hi
    obtain ⟨-, hc, -⟩ := CoherentBuffer.coherent_write_ok_inversion st st2 d f heq
    show st2.contents[i]? = st.contents[i]?
    rw [hc, copyIntoFront_getElem_tail _ _ _ hi]
  · intro st st2 d i heq hi
    obtain ⟨-, hc⟩ := VariableBuffer.update_ok_inversion st st2 d heq
    show st2.contents[i]? = st.contents[i]?
    rw [hc, copyIntoFront_getElem_tail _ _ _ hi]
  · intro st st2 fut d i heq hi
    obtain ⟨-, hc, -⟩ := Buffer.update_async_ok_inversion st st2 d fut heq
    rw [Buffer.tagged_read_eq_contents, Buffer.tagged_read_eq_contents, hc,
      copyIntoFront_getElem_tail _ _ _ hi]
  · intro st d i hle hi
    rw [ConstantBuffer.constant_read_eq_contents, ConstantBuffer.constant_read_eq_contents]
    show (copy_buffer (d.map some) st.contents)[i]? = st.contents[i]?
    rw [copy_buffer_map_some st.contents d hle, copyIntoFront_getElem_tail _ _ _ hi]
  · intro st st2 f d i hreach heq hi
    obtain ⟨hle, h1, h2⟩ := StagedBuffer.staged_write_ok_inversion st st2 d f heq
    have inv := stagedReach_staging_eq_inner st hreach
    have hstg : (copyIntoFront st.staging d).length = st.staging.length :=
      copyIntoFront_length _ _ hle
    have hin : st2.inner = copyIntoFront st.staging d := by
      rw [h2, copy_buffer_of_length_eq _ _ (by rw [hstg, inv])]
    show (copy_buffer st2.inner st2.staging)[i]? = (copy_buffer st.inner st.staging)[i]?
    rw [h1, hin, copy_buffer_of_length_eq _ _ rfl,
      copy_buffer_of_length_eq st.inner st.staging (by rw [inv]),
      copyIntoFront_getElem_tail _ _ _ hi, inv]

/-- Claim C6 witness: the tail-preservation theorem instantiated on a
coherent buffer (capacity 5, write of 2 elements, index 2) and on a freshly
created staged buffer. -/
theorem C6_witness :
    ((CoherentBuffer.read { contents := [some (10 : Nat), some 20, some 3, some 4, some 5] }).wait[2]?
      = (CoherentBuffer.read (CoherentBuffer.from_data [(1 : Nat), 2, 3, 4, 5])).wait[2]?)
    ∧ ((StagedBuffer.from_data [(5 : Nat), 6, 3]).read.2.wait[2]?
      = (StagedBuffer.from_data [(1 : Nat), 2, 3]).read.2.wait[2]?) :=
  ⟨C6_short_write_keeps_tail.1 (CoherentBuffer.from_data [(1 : Nat), 2, 3, 4, 5])
      { contents := [some 10, some 20, some 3, some 4, some 5] } { inner := none }
      [10, 20] 2 (by decide) (by decide),
   C6_short_write_keeps_tail.2.2.2.2 (StagedBuffer.from_data [(1 : Nat), 2, 3])
      (StagedBuffer.from_data [(5 : Nat), 6, 3]) { inner := some () } [5, 6] 2
      (StagedReach.init [1, 2, 3]) (by decide) (by decide)⟩

/-- Claim C8: a completion handle with no pending GPU submission does not
block on `wait`. A coherent (Dynamic/host-visible) buffer's read handle is
trivially complete and its `wait` immediately yields the extraction result,
equal to the buffer contents at the time of the `read` call (what a
synchronous read would have produced); a coherent write's handle is
trivially complete and its `wait` returns without blocking; and an
intent-tagged Dynamic buffer's `update_async` returns a future with no
pending submission. -/
theorem C8_trivial_handles_do_not_block {α : Type} :
    (∀ f : BufferWriteFuture, f.is_trivial = true → f.blocksOnWait = false)
    ∧ (∀ f : BufferReadFuture α, f.inner = none →
      f.blocksOnWait = false ∧ f.wait = f.data)
    ∧ (∀ st : CoherentBuffer α,
      st.read.inner = none
      ∧ st.read.blocksOnWait = false
      ∧ st.read.wait = st.contents)
    ∧ (∀ (st st2 : CoherentBuffer α) (f : BufferWriteFuture) (d : List α),
      st.write d = Outcome.ok (st2, f) →
      f.is_trivial = true ∧ f.blocksOnWait = false)
    ∧ (∀ (st st2 : Buffer α) (fut : Option Unit) (d : List α),
      st.intent = Intent.Dynamic →
      st.update_async d = Outcome.ok (st2, fut) →
      fut = none) := by
  refine ⟨?_, ?_, fun st => ⟨rfl, rfl, rfl⟩, ?_, ?_⟩
  · intro f hf
    unfold BufferWriteFuture.is_trivial at hf
    unfold BufferWriteFuture.blocksOnWait
    cases hi : f.inner
    · rfl
    · rw [hi] at hf
      cases hf
  · intro f hf
    refine ⟨?_, rfl⟩
    unfold BufferReadFuture.blocksOnWait
    rw [hf]
    rfl
  · intro st st2 f d heq
    obtain ⟨-, -, hf⟩ := CoherentBuffer.coherent_write_ok_inversion st st2 d f heq
    subst hf
    exact ⟨rfl, rfl⟩
  · intro st st2 fut d hi heq
    unfold Buffer.update_async at heq
    by_cases h : st.contents.length < d.length
    · rw [if_pos h] at heq
      cases heq
    · rw [if_neg h, hi] at heq
      injection heq with h2
      injection h2 with h3 h4
      exact h4.symm

/-- Claim C8 witness: the trivially-complete-handle theorem instantiated on
a concrete coherent buffer, write, and Dynamic intent-tagged buffer. -/
theorem C8_witness :
    ((CoherentBuffer.read { contents := [some (3 : Nat), some 4] }).inner = none
      ∧ (CoherentBuffer.read { contents := [some (3 : Nat), some 4] }).blocksOnWait = false
      ∧ (CoherentBuffer.read { contents := [some (3 : Nat), some 4] }).wait = [some 3, some 4])
    ∧ (BufferWriteFuture.is_trivial { inner := none } = true
      ∧ BufferWriteFuture.blocksOnWait { inner := none } = false)
    ∧ (BufferWriteFuture.blocksOnWait { inner := none } = false)
    ∧ ((none : Option Unit) = none) :=
  ⟨(@C8_trivial_handles_do_not_block Nat).2.2.1 { contents := [some 3, some 4] },
   (@C8_trivial_handles_do_not_block Nat).2.2.2.1
     (CoherentBuffer.from_data [(3 : Nat), 4])
     { contents := [some 9, some 4] } { inner := none } [9] (by decide),
   (@C8_trivial_handles_do_not_block Nat).1 { inner := none } (by decide),
   (@C8_trivial_handles_do_not_block Nat).2.2.2.2
     { contents := [some (3 : Nat), some 4], intent := Intent.Dynamic }
     { contents := [some 9, some 4], intent := Intent.Dynamic } none [9]
     (by decide) (by decide)⟩

/-- Claim C9: for a staged buffer manipulated only through its public
operations, observed at quiescent points, the staging region equals the
device-local buffer: after `from_data`, after any write's submitted copy
completes, and after any read's copy completes. Consequences stated
alongside: a read overwrites the staging region with the device contents
(and its extraction yields exactly those contents), and a write's submitted
copy transfers the entire updated staging region — tail included — to the
device buffer. -/
theorem C9_staging_equals_device {α : Type} (st : StagedBuffer α)
    (h : StagedReach st) (d : List α) (hd : d.length ≤ st.staging.length) :
    st.staging = st.inner
    ∧ st.read.1.staging = st.inner
    ∧ st.read.2.data = st.inner
    ∧ copy_buffer (copyIntoFront st.staging d) st.inner = copyIntoFront st.staging d := by
  have inv := stagedReach_staging_eq_inner st h
  have hread : copy_buffer st.inner st.staging = st.inner :=
    copy_buffer_of_length_eq _ _ (by rw [inv])
  refine ⟨inv, hread, hread, ?_⟩
  exact copy_buffer_of_length_eq _ _ (by rw [copyIntoFront_length _ _ hd, inv])

/-- Claim C9 witness: the staged invariant instantiated at the reachable
state `from_data [1, 2]` with the partial write data `[9]`. -/
theorem C9_witness :
    ((StagedBuffer.from_data [(1 : Nat), 2]).staging
        = (StagedBuffer.from_data [(1 : Nat), 2]).inner)
    ∧ ((StagedBuffer.from_data [(1 : Nat), 2]).read.1.staging
        = (StagedBuffer.from_data [(1 : Nat), 2]).inner)
    ∧ ((StagedBuffer.from_data [(1 : Nat), 2]).read.2.data
        = (StagedBuffer.from_data [(1 : Nat), 2]).inner)
    ∧ (copy_buffer (copyIntoFront (StagedBuffer.from_data [(1 : Nat), 2]).staging [9])
          (StagedBuffer.from_data [(1 : Nat), 2]).inner
        = copyIntoFront (StagedBuffer.from_data [(1 : Nat), 2]).staging [9]) :=
  C9_staging_equals_device (StagedBuffer.from_data [(1 : Nat), 2])
    (StagedReach.init [1, 2]) [9] (by decide)

/-- Claim C10: every call to dispatch records exactly one dispatch command,
with the fixed workgroup grid (128, 1, 1), independent of the `count`
argument and of the bound buffers' capacities. -/
theorem C10_dispatch_single_fixed_grid {α : Type} (op : OpCode)
    (a b c : StagedBuffer α) (count : Nat) :
    (GPULA.dispatch op a b c count).commands.filter Command.isDispatchCmd
      = [Command.dispatchCmd (128, 1, 1)]
    ∧ (GPULA.dispatch op a b c count).commands.countP Command.isDispatchCmd = 1 :=
  ⟨rfl, rfl⟩

end Quadrax
